import Mathlib

/-!
Verification development for work.py of nuke-dash/inky.

The file embeds, in order:
* the image selectors (get_all_image_files, get_random_image_path,
  get_latest_image_path),
* the compositor (resize_image_aspect_fit),
* the LED primitives (set_led over the module globals) and an interleaved
  small-step model of the blink thread (blink_led_worker) together with
  start_led_blinking / stop_led_blinking,
* the dispatcher-level control flow (show_image, handle_button).

Machine integers never overflow here (Python ints are unbounded), divisions
are embedded as exact rational arithmetic with explicit floors where the
source applies int(), and fallible calls return Except / an Option error
component.
-/

/-- Python exception kinds that work.py can raise or catch: TypeError (caught
around inky.set_image), ValueError (raised by get_all_image_files), and any
other I/O or driver error. -/
inductive PyErr
  | typeError
  | valueError
  | ioError
deriving DecidableEq

/-- One directory entry as work.py observes it: a file name and its filesystem
modification time (os.path.getmtime), abstracted to a natural number. -/
structure DirEntry where
  name : String
  mtime : Nat
deriving DecidableEq

/-- The extension allow-list of get_all_image_files. -/
def image_extensions : List String := [".jpg", ".jpeg", ".png", ".gif", ".bmp"]

/-- The filter of get_all_image_files: f.lower().endswith(image_extensions).
Lowercasing and suffix comparison are performed on the character list of the
name, matching Python's per-character str.lower / str.endswith on ASCII. -/
def isImageFile (s : String) : Bool :=
  image_extensions.any (fun ext => List.isSuffixOf ext.data (s.data.map Char.toLower))

/-- get_all_image_files: keep the entries passing isImageFile and raise
ValueError ("No image files found in ...") when none remain. The os.path.join
with the folder prefix is dropped: entries are returned as-is. -/
def get_all_image_files (folder : List DirEntry) : Except PyErr (List DirEntry) :=
  let image_files := folder.filter (fun f => isImageFile f.name)
  if image_files.isEmpty then .error .valueError
  else .ok image_files

/-- get_random_image_path: random.choice on the listing, modelled by an index
oracle ix reduced modulo the length of the listing. -/
def get_random_image_path (folder : List DirEntry) (ix : Nat) : Except PyErr DirEntry :=
  match get_all_image_files folder with
  | .error e => .error e
  | .ok files => .ok (files.getD (ix % files.length) ⟨"", 0⟩)

/-- Python's max with a key: scan left to right, replacing the accumulator only
when the candidate's key is strictly greater, so the first maximal element wins. -/
def maxByMtime (x : DirEntry) (xs : List DirEntry) : DirEntry :=
  xs.foldl (fun acc y => if acc.mtime < y.mtime then y else acc) x

/-- get_latest_image_path: max(all_images, key=os.path.getmtime). The empty-ok
branch is unreachable because get_all_image_files never returns an empty list. -/
def get_latest_image_path (folder : List DirEntry) : Except PyErr DirEntry :=
  match get_all_image_files folder with
  | .error e => .error e
  | .ok [] => .error .valueError
  | .ok (x :: xs) => .ok (maxByMtime x xs)

/-- Outcome of resize_image_aspect_fit at the level the claims are about: the
canvas allocated by Image.new(mode, target_size, background_color), the size
the source content is scaled to, and the paste offsets. Image.paste never
changes the canvas dimensions. -/
structure FitResult where
  canvasW : Nat
  canvasH : Nat
  contentW : Nat
  contentH : Nat
  offX : Int
  offY : Int
  fill : String
deriving DecidableEq

/-- resize_image_aspect_fit: aspect ratios are exact rationals (Python floats
of unbounded-int quotients), int() on a nonnegative value is the floor, and
Python's // is floor division (Int.fdiv). -/
def resize_image_aspect_fit (w h tw th : Nat) (background_color : String) : FitResult :=
  let image_aspect : ℚ := (w : ℚ) / (h : ℚ)
  let target_aspect : ℚ := (tw : ℚ) / (th : ℚ)
  let nwnh : Nat × Nat :=
    if image_aspect > target_aspect then
      (tw, ⌊(tw : ℚ) / image_aspect⌋₊)
    else
      (⌊(th : ℚ) * image_aspect⌋₊, th)
  { canvasW := tw
    canvasH := th
    contentW := nwnh.1
    contentH := nwnh.2
    offX := Int.fdiv ((tw : Int) - (nwnh.1 : Int)) 2
    offY := Int.fdiv ((th : Int) - (nwnh.2 : Int)) 2
    fill := background_color }

-- Sanity checks on concrete inputs.
example : isImageFile "a.JPG" = true := by decide
example : isImageFile "a.txt" = false := by decide
example : get_latest_image_path [⟨"a.jpg", 1⟩, ⟨"b.png", 3⟩, ⟨"c.bmp", 3⟩]
    = .ok ⟨"b.png", 3⟩ := rfl

/-- Helper: the content size computed by resize_image_aspect_fit, written with
integer cross-multiplication and Nat (floor) division. int() on the nonnegative
Python quotients is truncation toward zero, i.e. the floor. -/
theorem resize_contentSize (w h tw th : Nat) (bg : String)
    (hh : 0 < h) (hth : 0 < th) :
    ((resize_image_aspect_fit w h tw th bg).contentW,
      (resize_image_aspect_fit w h tw th bg).contentH)
      = if tw * h < w * th then (tw, tw * h / w) else (th * w / h, th) := by
  have hhQ : ((h : ℚ)) ≠ 0 := by positivity
  have hcond : ((tw : ℚ) / (th : ℚ) < (w : ℚ) / (h : ℚ)) ↔ tw * h < w * th := by
    rw [div_lt_div_iff₀ (by positivity) (by positivity)]
    exact_mod_cast Iff.rfl
  by_cases hc : tw * h < w * th
  · have h1 : (tw : ℚ) / ((w : ℚ) / (h : ℚ)) = ((tw * h : ℕ) : ℚ) / ((w : ℕ) : ℚ) := by
      rw [div_div_eq_mul_div]; push_cast; ring
    simp only [resize_image_aspect_fit, gt_iff_lt, hcond.mpr hc, if_pos, if_pos hc]
    rw [h1, Nat.floor_div_nat, Nat.floor_natCast]
  · have h2 : (th : ℚ) * ((w : ℚ) / (h : ℚ)) = ((th * w : ℕ) : ℚ) / ((h : ℕ) : ℚ) := by
      rw [mul_div_assoc']; push_cast; ring
    have hnotlt : ¬ ((tw : ℚ) / (th : ℚ) < (w : ℚ) / (h : ℚ)) := fun hlt => hc (hcond.mp hlt)
    simp only [resize_image_aspect_fit, gt_iff_lt, hnotlt, if_neg, if_neg hc,
      if_false]
    rw [h2, Nat.floor_div_nat, Nat.floor_natCast]

/-- Claim C4 (counterexample): a 3×2 source (aspect 3/2) into a 4×4 target
(aspect 1) falls in the image_aspect > target_aspect branch and the code sets
new_height = int(4 / (3/2)) = int(8/3) = 2, whereas rounding to nearest gives
round(8/3) = 3: the code truncates toward zero, it does not round. -/
theorem C4_counterexample :
    (resize_image_aspect_fit 3 2 4 4 "white").contentH = 2 ∧
    round ((4 : ℚ) / ((3 : ℚ) / (2 : ℚ))) = 3 := by
  constructor
  · have hsz := resize_contentSize 3 2 4 4 "white" (by norm_num) (by norm_num)
    norm_num at hsz
    exact hsz.2
  · have e : (4 : ℚ) / ((3 : ℚ) / (2 : ℚ)) + 1 / 2 = ((19 : ℤ) : ℚ) / ((6 : ℕ) : ℚ) := by
      push_cast
      norm_num
    rw [round_eq, e, Rat.floor_intCast_div_natCast]
    decide

/-- Claim C4 (amended): for every source (w, h) and target (tw, th) with positive
dimensions, writing the branch condition image_aspect > target_aspect in the
equivalent cross-multiplied form w·th > tw·h: in the first branch the scaled
content is exactly (tw, tw·h / w) and in the other branch exactly (th·w / h, th),
where the division is integer division truncating toward zero (the floor of the
exact quotient), not rounding to nearest. -/
theorem C4_amended (w h tw th : ℕ) (bg : String)
    (hh : 0 < h) (hth : 0 < th) :
    (tw * h < w * th →
      (resize_image_aspect_fit w h tw th bg).contentW = tw ∧
      (resize_image_aspect_fit w h tw th bg).contentH = tw * h / w) ∧
    (w * th ≤ tw * h →
      (resize_image_aspect_fit w h tw th bg).contentW = th * w / h ∧
      (resize_image_aspect_fit w h tw th bg).contentH = th) := by
  have hsz := resize_contentSize w h tw th bg hh hth
  constructor
  · intro hc
    rw [if_pos hc] at hsz
    exact ⟨congrArg Prod.fst hsz, congrArg Prod.snd hsz⟩
  · intro hc
    rw [if_neg (Nat.not_lt.mpr hc)] at hsz
    exact ⟨congrArg Prod.fst hsz, congrArg Prod.snd hsz⟩

/-- Witness for C4_amended at the counterexample input 3×2 → 4×4. -/
theorem C4_amended_witness :
    (resize_image_aspect_fit 3 2 4 4 "white").contentW = 4 ∧
    (resize_image_aspect_fit 3 2 4 4 "white").contentH = 4 * 2 / 3 :=
  (C4_amended 3 2 4 4 "white" (by decide) (by decide)).1 (by decide)

/-- Claim C5: resize_image_aspect_fit always allocates a canvas of exactly the
target size filled with the background color; the scaled content fits inside it
in both directions (so pasting crops nothing), and the paste offsets are the
floor divisions ((tw - contentW) // 2, (th - contentH) // 2), which are
nonnegative and keep the content inside the canvas. -/
theorem C5_fit_letterbox (w h tw th : ℕ) (bg : String)
    (hh : 0 < h) (hth : 0 < th) :
    (resize_image_aspect_fit w h tw th bg).canvasW = tw ∧
    (resize_image_aspect_fit w h tw th bg).canvasH = th ∧
    (resize_image_aspect_fit w h tw th bg).fill = bg ∧
    (resize_image_aspect_fit w h tw th bg).contentW ≤ tw ∧
    (resize_image_aspect_fit w h tw th bg).contentH ≤ th ∧
    (resize_image_aspect_fit w h tw th bg).offX
      = Int.fdiv ((tw : Int) - ((resize_image_aspect_fit w h tw th bg).contentW : Int)) 2 ∧
    (resize_image_aspect_fit w h tw th bg).offY
      = Int.fdiv ((th : Int) - ((resize_image_aspect_fit w h tw th bg).contentH : Int)) 2 ∧
    0 ≤ (resize_image_aspect_fit w h tw th bg).offX ∧
    0 ≤ (resize_image_aspect_fit w h tw th bg).offY ∧
    (resize_image_aspect_fit w h tw th bg).offX
      + ((resize_image_aspect_fit w h tw th bg).contentW : Int) ≤ (tw : Int) ∧
    (resize_image_aspect_fit w h tw th bg).offY
      + ((resize_image_aspect_fit w h tw th bg).contentH : Int) ≤ (th : Int) := by
  have hsz := resize_contentSize w h tw th bg hh hth
  have hbounds : (resize_image_aspect_fit w h tw th bg).contentW ≤ tw ∧
      (resize_image_aspect_fit w h tw th bg).contentH ≤ th := by
    by_cases hc : tw * h < w * th
    · rw [if_pos hc] at hsz
      simp only [Prod.mk.injEq] at hsz
      have hw : 0 < w := by
        rcases Nat.eq_zero_or_pos w with h0 | h0
        · subst h0; simp at hc
        · exact h0
      refine ⟨le_of_eq hsz.1, ?_⟩
      rw [hsz.2]
      exact le_of_lt ((Nat.div_lt_iff_lt_mul hw).mpr (by
        calc tw * h < w * th := hc
        _ = th * w := Nat.mul_comm w th))
    · rw [if_neg hc] at hsz
      simp only [Prod.mk.injEq] at hsz
      have hc' : w * th ≤ tw * h := Nat.not_lt.mp hc
      refine ⟨?_, le_of_eq hsz.2⟩
      rw [hsz.1]
      calc th * w / h ≤ tw * h / h := Nat.div_le_div_right (by
            calc th * w = w * th := Nat.mul_comm th w
            _ ≤ tw * h := hc')
      _ = tw := Nat.mul_div_cancel tw hh
  obtain ⟨hcw, hch⟩ := hbounds
  have hoX : (resize_image_aspect_fit w h tw th bg).offX
      = Int.fdiv ((tw : Int) - ((resize_image_aspect_fit w h tw th bg).contentW : Int)) 2 := rfl
  have hoY : (resize_image_aspect_fit w h tw th bg).offY
      = Int.fdiv ((th : Int) - ((resize_image_aspect_fit w h tw th bg).contentH : Int)) 2 := rfl
  have heX : (resize_image_aspect_fit w h tw th bg).offX
      = ((tw : Int) - ((resize_image_aspect_fit w h tw th bg).contentW : Int)) / 2 := by
    rw [hoX, Int.fdiv_eq_ediv _ (by omega)]
  have heY : (resize_image_aspect_fit w h tw th bg).offY
      = ((th : Int) - ((resize_image_aspect_fit w h tw th bg).contentH : Int)) / 2 := by
    rw [hoY, Int.fdiv_eq_ediv _ (by omega)]
  refine ⟨rfl, rfl, rfl, hcw, hch, hoX, hoY, ?_, ?_, ?_, ?_⟩
  · rw [heX]; omega
  · rw [heY]; omega
  · rw [heX]; omega
  · rw [heY]; omega

/-- Helper: unfolding one step of the Python max scan. -/
theorem maxByMtime_cons (x y : DirEntry) (ys : List DirEntry) :
    maxByMtime x (y :: ys) = maxByMtime (if x.mtime < y.mtime then y else x) ys := rfl

/-- Helper: the Python max scan returns an element of the list that is at least
as recent as every element, and strictly more recent than everything before it,
i.e. the first element attaining the maximum mtime. -/
theorem maxByMtime_spec (xs : List DirEntry) (x : DirEntry) :
    ∃ l₁ l₂, x :: xs = l₁ ++ maxByMtime x xs :: l₂ ∧
      (∀ y ∈ l₁, y.mtime < (maxByMtime x xs).mtime) ∧
      (∀ y ∈ x :: xs, y.mtime ≤ (maxByMtime x xs).mtime) := by
  induction xs generalizing x with
  | nil =>
    refine ⟨[], [], rfl, by simp, ?_⟩
    intro y hy
    rcases List.mem_cons.mp hy with rfl | hy
    · exact le_refl _
    · simp at hy
  | cons y ys ih =>
    rw [maxByMtime_cons]
    by_cases hxy : x.mtime < y.mtime
    · rw [if_pos hxy]
      obtain ⟨l₁, l₂, hsplit, hlt, hle⟩ := ih y
      refine ⟨x :: l₁, l₂, ?_, ?_, ?_⟩
      · rw [List.cons_append, ← hsplit]
      · intro z hz
        rcases List.mem_cons.mp hz with rfl | hz
        · exact lt_of_lt_of_le hxy (hle y (List.mem_cons_self _ _))
        · exact hlt z hz
      · intro z hz
        rcases List.mem_cons.mp hz with rfl | hz
        · exact le_of_lt (lt_of_lt_of_le hxy (hle y (List.mem_cons_self _ _)))
        · exact hle z hz
    · rw [if_neg hxy]
      obtain ⟨l₁, l₂, hsplit, hlt, hle⟩ := ih x
      have hyx : y.mtime ≤ x.mtime := Nat.not_lt.mp hxy
      have hxle : x.mtime ≤ (maxByMtime x ys).mtime := hle x (List.mem_cons_self _ _)
      cases l₁ with
      | nil =>
        simp only [List.nil_append] at hsplit
        injection hsplit with hx hys
        refine ⟨[], y :: ys, ?_, by simp, ?_⟩
        · simp [← hx]
        · intro z hz
          rcases List.mem_cons.mp hz with rfl | hz
          · exact hxle
          · rcases List.mem_cons.mp hz with rfl | hz
            · exact le_trans hyx hxle
            · exact hle z (List.mem_cons_of_mem _ hz)
      | cons a l₁' =>
        simp only [List.cons_append] at hsplit
        injection hsplit with hxa hys
        have hxlt : x.mtime < (maxByMtime x ys).mtime := by
          have ha := hlt a (List.mem_cons_self _ _)
          rw [← hxa] at ha
          exact ha
        refine ⟨x :: y :: l₁', l₂, ?_, ?_, ?_⟩
        · nth_rewrite 1 [hys]
          rfl
        · intro z hz
          rcases List.mem_cons.mp hz with rfl | hz
          · exact hxlt
          · rcases List.mem_cons.mp hz with rfl | hz
            · exact lt_of_le_of_lt hyx hxlt
            · exact hlt z (List.mem_cons_of_mem _ hz)
        · intro z hz
          rcases List.mem_cons.mp hz with rfl | hz
          · exact hxle
          · rcases List.mem_cons.mp hz with rfl | hz
            · exact le_trans hyx hxle
            · exact hle z (List.mem_cons_of_mem _ hz)

/-- Helper: when the folder holds at least one allow-listed file, the listing
succeeds and returns exactly the filtered entries. -/
theorem get_all_image_files_ok (folder : List DirEntry)
    (hne : ∃ f ∈ folder, isImageFile f.name = true) :
    get_all_image_files folder
      = .ok (folder.filter (fun f => isImageFile f.name)) := by
  obtain ⟨f, hf, hfim⟩ := hne
  have hmem : f ∈ folder.filter (fun f => isImageFile f.name) :=
    List.mem_filter.mpr ⟨hf, hfim⟩
  have hempty : (folder.filter (fun f => isImageFile f.name)).isEmpty = false := by
    cases hfl : folder.filter (fun f => isImageFile f.name) with
    | nil => rw [hfl] at hmem; simp at hmem
    | cons a l => rfl
  simp [get_all_image_files, hempty]

/-- Helper: when no file in the folder passes the allow-list, the listing raises
ValueError. -/
theorem get_all_image_files_empty (folder : List DirEntry)
    (h : ∀ f ∈ folder, isImageFile f.name = false) :
    get_all_image_files folder = .error .valueError := by
  have hfl : folder.filter (fun f => isImageFile f.name) = [] := by
    rw [List.filter_eq_nil_iff]
    intro a ha
    rw [h a ha]
    simp
  simp [get_all_image_files, hfl]

/-- Claim C6: on a folder with at least one allow-listed image file,
get_latest_image_path returns an entry of the filtered listing with maximal
mtime; among several entries sharing the maximal mtime the result is
deterministic, namely the first such entry in listing order (everything before
it in the listing has strictly smaller mtime). -/
theorem C6_latest_first_max (folder : List DirEntry)
    (hne : ∃ f ∈ folder, isImageFile f.name = true) :
    ∃ r, get_latest_image_path folder = Except.ok r ∧
      r ∈ folder.filter (fun f => isImageFile f.name) ∧
      (∀ y ∈ folder.filter (fun f => isImageFile f.name), y.mtime ≤ r.mtime) ∧
      ∃ l₁ l₂, folder.filter (fun f => isImageFile f.name) = l₁ ++ r :: l₂ ∧
        ∀ y ∈ l₁, y.mtime < r.mtime := by
  have hall := get_all_image_files_ok folder hne
  obtain ⟨f, hf, hfim⟩ := hne
  have hmem : f ∈ folder.filter (fun f => isImageFile f.name) :=
    List.mem_filter.mpr ⟨hf, hfim⟩
  cases hfl : folder.filter (fun f => isImageFile f.name) with
  | nil => rw [hfl] at hmem; simp at hmem
  | cons x xs =>
    have hlatest : get_latest_image_path folder = .ok (maxByMtime x xs) := by
      unfold get_latest_image_path
      rw [hall, hfl]
    obtain ⟨l₁, l₂, hsplit, hlt, hle⟩ := maxByMtime_spec xs x
    refine ⟨maxByMtime x xs, hlatest, ?_, ?_, l₁, l₂, ?_, hlt⟩
    · rw [hsplit]
      exact List.mem_append.mpr (Or.inr (List.mem_cons_self _ _))
    · intro y hy
      exact hle y hy
    · exact hsplit

/-- Witness for C6_latest_first_max: three image files with mtimes 1, 3, 3;
the first mtime-3 entry (b.png) is returned. -/
theorem C6_witness :
    ∃ r : DirEntry, get_latest_image_path [⟨"a.jpg", 1⟩, ⟨"b.png", 3⟩, ⟨"c.bmp", 3⟩]
        = Except.ok r ∧
      r ∈ List.filter (fun f : DirEntry => isImageFile f.name)
          [⟨"a.jpg", 1⟩, ⟨"b.png", 3⟩, ⟨"c.bmp", 3⟩] ∧
      (∀ y ∈ List.filter (fun f : DirEntry => isImageFile f.name)
          [⟨"a.jpg", 1⟩, ⟨"b.png", 3⟩, ⟨"c.bmp", 3⟩], y.mtime ≤ r.mtime) ∧
      ∃ l₁ l₂, List.filter (fun f : DirEntry => isImageFile f.name)
          [⟨"a.jpg", 1⟩, ⟨"b.png", 3⟩, ⟨"c.bmp", 3⟩] = l₁ ++ r :: l₂ ∧
        ∀ y ∈ l₁, y.mtime < r.mtime :=
  C6_latest_first_max [⟨"a.jpg", 1⟩, ⟨"b.png", 3⟩, ⟨"c.bmp", 3⟩]
    ⟨⟨"a.jpg", 1⟩, by decide, by decide⟩

/-- Claim C7: whenever the folder holds at least one file whose lower-cased name
ends with an allow-listed extension, get_random_image_path (for every choice of
the random index) and get_latest_image_path both return an entry of the folder
passing the allow-list; when no file passes, both raise ValueError (the error
the spec names EmptyFolder). -/
theorem C7_selectors (folder : List DirEntry) (ix : Nat) :
    ((∃ f ∈ folder, isImageFile f.name = true) →
      (∃ r, get_random_image_path folder ix = Except.ok r ∧
        r ∈ folder ∧ isImageFile r.name = true) ∧
      (∃ r, get_latest_image_path folder = Except.ok r ∧
        r ∈ folder ∧ isImageFile r.name = true)) ∧
    ((∀ f ∈ folder, isImageFile f.name = false) →
      get_random_image_path folder ix = Except.error PyErr.valueError ∧
      get_latest_image_path folder = Except.error PyErr.valueError) := by
  constructor
  · intro hne
    have hall := get_all_image_files_ok folder hne
    obtain ⟨f, hf, hfim⟩ := hne
    have hmem : f ∈ folder.filter (fun f => isImageFile f.name) :=
      List.mem_filter.mpr ⟨hf, hfim⟩
    have hlen : 0 < (folder.filter (fun f => isImageFile f.name)).length :=
      List.length_pos_of_mem hmem
    constructor
    · have hmod : ix % (folder.filter (fun f => isImageFile f.name)).length
          < (folder.filter (fun f => isImageFile f.name)).length :=
        Nat.mod_lt _ hlen
      refine ⟨(folder.filter (fun f => isImageFile f.name)).getD
          (ix % (folder.filter (fun f => isImageFile f.name)).length) ⟨"", 0⟩, ?_, ?_⟩
      · unfold get_random_image_path
        rw [hall]
      · have hget : (folder.filter (fun f => isImageFile f.name)).getD
            (ix % (folder.filter (fun f => isImageFile f.name)).length) ⟨"", 0⟩
            = (folder.filter (fun f => isImageFile f.name)).get
              ⟨ix % (folder.filter (fun f => isImageFile f.name)).length, hmod⟩ := by
          rw [List.getD_eq_getElem?_getD, List.getElem?_eq_getElem hmod]
          rfl
        rw [hget]
        have hmem' : (folder.filter (fun f => isImageFile f.name)).get
              ⟨ix % (folder.filter (fun f => isImageFile f.name)).length, hmod⟩
            ∈ folder.filter (fun f => isImageFile f.name) := List.get_mem _ _ _
        exact ⟨(List.mem_filter.mp hmem').1, (List.mem_filter.mp hmem').2⟩
    · cases hfl : folder.filter (fun f => isImageFile f.name) with
      | nil => rw [hfl] at hmem; simp at hmem
      | cons x xs =>
        have hlatest : get_latest_image_path folder = .ok (maxByMtime x xs) := by
          unfold get_latest_image_path
          rw [hall, hfl]
        obtain ⟨l₁, l₂, hsplit, _, _⟩ := maxByMtime_spec xs x
        have hmem' : maxByMtime x xs ∈ folder.filter (fun f => isImageFile f.name) := by
          rw [hfl, hsplit]
          exact List.mem_append.mpr (Or.inr (List.mem_cons_self _ _))
        exact ⟨maxByMtime x xs, hlatest,
          (List.mem_filter.mp hmem').1, (List.mem_filter.mp hmem').2⟩
  · intro hempty
    have hall := get_all_image_files_empty folder hempty
    constructor
    · unfold get_random_image_path
      rw [hall]
    · unfold get_latest_image_path
      rw [hall]

/-- Witness for C7_selectors: a folder with one image file and one non-image
file, and a folder with no image files. -/
theorem C7_witness :
    (∃ r : DirEntry, get_random_image_path [⟨"n.txt", 9⟩, ⟨"a.jpg", 5⟩] 7 = Except.ok r ∧
      r ∈ [(⟨"n.txt", 9⟩ : DirEntry), ⟨"a.jpg", 5⟩] ∧ isImageFile r.name = true) ∧
    get_random_image_path [⟨"n.txt", 9⟩] 7 = Except.error PyErr.valueError ∧
    get_latest_image_path [⟨"n.txt", 9⟩] = Except.error PyErr.valueError :=
  ⟨((C7_selectors [⟨"n.txt", 9⟩, ⟨"a.jpg", 5⟩] 7).1
      ⟨⟨"a.jpg", 5⟩, by decide, by decide⟩).1,
    (C7_selectors [⟨"n.txt", 9⟩] 7).2 (by decide)⟩

/-- Witness for C5_fit_letterbox at the spec's worked example: a 200×100 source
into a 100×100 target. -/
theorem C5_witness :
    (resize_image_aspect_fit 200 100 100 100 "white").canvasW = 100 ∧
    (resize_image_aspect_fit 200 100 100 100 "white").canvasH = 100 ∧
    (resize_image_aspect_fit 200 100 100 100 "white").fill = "white" ∧
    (resize_image_aspect_fit 200 100 100 100 "white").contentW ≤ 100 ∧
    (resize_image_aspect_fit 200 100 100 100 "white").contentH ≤ 100 ∧
    (resize_image_aspect_fit 200 100 100 100 "white").offX
      = Int.fdiv ((100 : Int) - ((resize_image_aspect_fit 200 100 100 100 "white").contentW : Int)) 2 ∧
    (resize_image_aspect_fit 200 100 100 100 "white").offY
      = Int.fdiv ((100 : Int) - ((resize_image_aspect_fit 200 100 100 100 "white").contentH : Int)) 2 ∧
    0 ≤ (resize_image_aspect_fit 200 100 100 100 "white").offX ∧
    0 ≤ (resize_image_aspect_fit 200 100 100 100 "white").offY ∧
    (resize_image_aspect_fit 200 100 100 100 "white").offX
      + ((resize_image_aspect_fit 200 100 100 100 "white").contentW : Int) ≤ (100 : Int) ∧
    (resize_image_aspect_fit 200 100 100 100 "white").offY
      + ((resize_image_aspect_fit 200 100 100 100 "white").contentH : Int) ≤ (100 : Int) :=
  C5_fit_letterbox 200 100 100 100 "white" (by decide) (by decide)

/-- The LED-related module globals of work.py as set_led reads them:
led_gpio_request (None until setup_led ran; truthy object afterwards),
led_line_offset, plus the physical line value and a count of hardware writes
actually performed. -/
structure GpioState where
  led_gpio_request : Option Unit
  led_line_offset : Option Nat
  line : Bool
  writes : Nat
deriving DecidableEq

/-- set_led from work.py: the guard is
`if led_gpio_request and led_line_offset is not None`; a None request is falsy
and a None offset fails the `is not None` test, so the write happens only when
both are present. -/
def set_led (state : Bool) (g : GpioState) : GpioState :=
  if g.led_gpio_request.isSome && g.led_line_offset.isSome then
    { g with line := state, writes := g.writes + 1 }
  else g

/-- Claim C10: set_led is a total no-op when the LED has not been set up: for
every boolean argument, if the stored GPIO request is None or the stored line
offset is None, no hardware write happens and the state is returned unchanged. -/
theorem C10_set_led_noop (b : Bool) (g : GpioState)
    (h : g.led_gpio_request = none ∨ g.led_line_offset = none) :
    set_led b g = g := by
  rcases h with h | h <;> simp [set_led, h]

/-- Witness for C10_set_led_noop: before setup_led, a write of True changes
nothing. -/
theorem C10_witness :
    set_led true ⟨none, some 13, false, 0⟩ = (⟨none, some 13, false, 0⟩ : GpioState) :=
  C10_set_led_noop true _ (Or.inl rfl)

/-- Program counter of one blink thread running blink_led_worker. checkLoop is
the `while led_blinking` test; setOn / setOff are the two set_led calls (the
line writes, which can raise); sleepOn / sleepOff are the two time.sleep(0.5)
calls; checkMid is the `if not led_blinking: break` test; done is normal exit;
died is exit by an uncaught exception from a failed line write. -/
inductive WPC
  | checkLoop
  | setOn
  | sleepOn
  | checkMid
  | setOff
  | sleepOff
  | done
  | died
deriving DecidableEq

/-- Interleaved state of the blink machinery: the led_blinking flag, the LED
line value (blink scenarios run after setup_led, so the set_led guard passes
and writes go through), the program counters of all spawned blink threads, and
errSlot. errSlot is modelled from the spec: §4.1 posits "a stored error slot
inspected by the next stop_blinking() call"; the source's only module globals
are led_blinking, led_blink_thread, led_gpio_request and led_line_offset, so no
operation below ever writes this field. -/
structure LedSys where
  flag : Bool
  led : Bool
  workers : List WPC
  errSlot : Option PyErr
deriving DecidableEq

/-- One atomic step of blink_led_worker at program counter p, given the current
flag and line value; failWrite injects a hardware failure into a line write
(the uncaught exception kills the thread). Returns the new counter and line. -/
def wstep (failWrite : Bool) (flag led : Bool) : WPC → WPC × Bool
  | WPC.checkLoop => (if flag then WPC.setOn else WPC.done, led)
  | WPC.setOn => if failWrite then (WPC.died, led) else (WPC.sleepOn, true)
  | WPC.sleepOn => (WPC.checkMid, led)
  | WPC.checkMid => (if flag then WPC.setOff else WPC.done, led)
  | WPC.setOff => if failWrite then (WPC.died, led) else (WPC.sleepOff, false)
  | WPC.sleepOff => (WPC.checkLoop, led)
  | WPC.done => (WPC.done, led)
  | WPC.died => (WPC.died, led)

/-- Scheduler action: run one step of worker i (no-op if no such worker). -/
def stepWorker (i : Nat) (failWrite : Bool) (s : LedSys) : LedSys :=
  match s.workers[i]? with
  | none => s
  | some p =>
    let r := wstep failWrite s.flag s.led p
    { s with workers := s.workers.set i r.1, led := r.2 }

/-- Run the worker steps of a schedule (worker index, write-failure flag). -/
def runWorkers (sched : List (Nat × Bool)) (s : LedSys) : LedSys :=
  sched.foldl (fun acc ib => stepWorker ib.1 ib.2 acc) s

/-- start_led_blinking: `if not led_blinking:` set the flag and spawn a new
thread on blink_led_worker. -/
def start_led_blinking (s : LedSys) : LedSys :=
  if s.flag then s
  else { s with flag := true, workers := s.workers ++ [WPC.checkLoop] }

/-- A thread that has exited, normally or by an uncaught exception. -/
def terminated : WPC → Bool
  | WPC.done => true
  | WPC.died => true
  | _ => false

/-- stop_led_blinking: `if led_blinking:` clear the flag, join the blink thread
with timeout=1.0, then set_led(False). The join phase is modelled by an
arbitrary interleaving duringJoin of worker steps: join returns when the thread
has terminated, but also — because the timeout elapses while time.sleep may
overrun and the OS may deschedule the thread arbitrarily long — possibly while
the thread is still alive, after any prefix of its remaining steps (including
none). The function never reads any stored error. -/
def stop_led_blinking (duringJoin : List (Nat × Bool)) (s : LedSys) : LedSys :=
  if s.flag then
    let s1 := runWorkers duringJoin { s with flag := false }
    { s1 with led := false }
  else s

/-- The initial state: module import sets led_blinking = False and no thread. -/
def initLed : LedSys := { flag := false, led := false, workers := [], errSlot := none }

/-- Helper: a terminated thread's step changes nothing. -/
theorem wstep_terminated (f flag led : Bool) (p : WPC) (h : terminated p = true) :
    wstep f flag led p = (p, led) := by
  cases p <;> simp_all [terminated, wstep]

/-- Helper: writing back the value already stored at an index leaves the list
unchanged. -/
theorem list_set_self {α : Type} (l : List α) (i : Nat) (p : α) (h : l[i]? = some p) :
    l.set i p = l := by
  induction l generalizing i with
  | nil => simp at h
  | cons a t ih =>
    cases i with
    | zero =>
      simp only [List.getElem?_cons_zero, Option.some.injEq] at h
      simp [h]
    | succ n =>
      simp only [List.getElem?_cons_succ] at h
      simp [ih n h]

/-- Helper: stepping any worker of a state whose blink threads have all
terminated changes nothing. -/
theorem stepWorker_all_terminated (i : Nat) (f : Bool) (s : LedSys)
    (h : s.workers.all terminated = true) :
    stepWorker i f s = s := by
  unfold stepWorker
  cases hi : s.workers[i]? with
  | none => rfl
  | some p =>
    have hp : terminated p = true :=
      List.all_eq_true.mp h p (List.getElem?_mem hi)
    simp only [wstep_terminated f s.flag s.led p hp]
    rw [list_set_self _ _ _ hi]

/-- Helper: any schedule of worker steps leaves an all-terminated state
unchanged. -/
theorem runWorkers_all_terminated (sched : List (Nat × Bool)) (s : LedSys)
    (h : s.workers.all terminated = true) :
    runWorkers sched s = s := by
  induction sched with
  | nil => rfl
  | cons ib t ih =>
    show runWorkers t (stepWorker ib.1 ib.2 s) = s
    rw [stepWorker_all_terminated ib.1 ib.2 s h, ih]

/-- Helper: every operation leaves errSlot untouched — a worker step stores
nothing. -/
theorem stepWorker_errSlot (i : Nat) (f : Bool) (s : LedSys) :
    (stepWorker i f s).errSlot = s.errSlot := by
  unfold stepWorker
  cases s.workers[i]? <;> rfl

/-- Helper: no schedule of worker steps touches errSlot. -/
theorem runWorkers_errSlot (sched : List (Nat × Bool)) (s : LedSys) :
    (runWorkers sched s).errSlot = s.errSlot := by
  induction sched generalizing s with
  | nil => rfl
  | cons ib t ih =>
    show (runWorkers t (stepWorker ib.1 ib.2 s)).errSlot = s.errSlot
    rw [ih, stepWorker_errSlot]

/-- Helper: stop_led_blinking neither reads nor writes any error slot. -/
theorem stop_led_blinking_errSlot (dj : List (Nat × Bool)) (s : LedSys) :
    (stop_led_blinking dj s).errSlot = s.errSlot := by
  unfold stop_led_blinking
  by_cases hf : s.flag
  · simp only [hf, if_pos]
    exact runWorkers_errSlot dj { s with flag := false }
  · simp only [hf]
    rfl

/-- Helper: a dead thread stays dead under every scheduled step. -/
theorem stepWorker_died (i j : Nat) (f : Bool) (s : LedSys)
    (h : s.workers[i]? = some WPC.died) :
    (stepWorker j f s).workers[i]? = some WPC.died := by
  unfold stepWorker
  cases hj : s.workers[j]? with
  | none => exact h
  | some q =>
    by_cases hij : i = j
    · subst hij
      rw [h] at hj
      injection hj with hq
      subst hq
      simp only [wstep]
      obtain ⟨hlt, -⟩ := List.getElem?_eq_some_iff.mp h
      exact List.getElem?_set_self (by simpa using hlt)
    · simp only []
      rw [List.getElem?_set_ne (fun hji => hij hji.symm)]
      exact h

/-- Helper: a dead thread stays dead under a whole schedule. -/
theorem runWorkers_died (sched : List (Nat × Bool)) (i : Nat) (s : LedSys)
    (h : s.workers[i]? = some WPC.died) :
    (runWorkers sched s).workers[i]? = some WPC.died := by
  induction sched generalizing s with
  | nil => exact h
  | cons ib t ih =>
    show (runWorkers t (stepWorker ib.1 ib.2 s)).workers[i]? = some WPC.died
    exact ih _ (stepWorker_died i ib.1 ib.2 s h)

/-- Helper: stepping a dead thread changes nothing at all. -/
theorem stepWorker_died_noop (i : Nat) (f : Bool) (s : LedSys)
    (h : s.workers[i]? = some WPC.died) :
    stepWorker i f s = s := by
  unfold stepWorker
  rw [h]
  simp only [wstep]
  rw [list_set_self _ _ _ h]

/-- Claim C2 (counterexample): stop_led_blinking is not synchronous. Start
blinking and let the worker pass its loop check (it is now about to execute
set_led(True)); call stop_led_blinking while the worker gets no further cpu
time — possible because join(timeout=1.0) returns after at most one second
while time.sleep and the scheduler may delay the worker arbitrarily longer.
stop returns with the thread not terminated and the line INACTIVE; the
worker's pending blink write then drives the line ACTIVE again. -/
theorem C2_counterexample :
    (stop_led_blinking [] (stepWorker 0 false (start_led_blinking initLed))).workers.all
        terminated = false ∧
    (stop_led_blinking [] (stepWorker 0 false (start_led_blinking initLed))).led = false ∧
    (stepWorker 0 false
        (stop_led_blinking [] (stepWorker 0 false (start_led_blinking initLed)))).led
      = true := by
  decide

/-- Claim C2 (amended): stop_led_blinking clears the flag, joins with a one
second timeout and drives the line INACTIVE. Whenever the join completes
because the blink thread really terminated during the join phase — the case in
which the 1.0 s timeout is not hit, which holds whenever the worker gets
scheduled within the timeout since it reaches a flag check after at most one
nominal 0.5 s sleep — stop returns with the line INACTIVE, every blink thread
terminated, and no schedule of further worker steps changes the state, so no
later read ever observes anything but INACTIVE. -/
theorem C2_amended (s : LedSys) (dj : List (Nat × Bool)) (hflag : s.flag = true)
    (hjoin : (runWorkers dj { s with flag := false }).workers.all terminated = true) :
    (stop_led_blinking dj s).led = false ∧
    (stop_led_blinking dj s).workers.all terminated = true ∧
    ∀ sched, runWorkers sched (stop_led_blinking dj s) = stop_led_blinking dj s := by
  have hstop : stop_led_blinking dj s
      = { runWorkers dj { s with flag := false } with led := false } := by
    simp [stop_led_blinking, hflag]
  refine ⟨by rw [hstop], ?_, ?_⟩
  · rw [hstop]
    exact hjoin
  · intro sched
    apply runWorkers_all_terminated
    rw [hstop]
    exact hjoin

/-- Witness for C2_amended: one worker at its loop check; during the join it is
scheduled once, sees the cleared flag and exits; afterwards even a scheduled
(and even failing) write attempt changes nothing. -/
theorem C2_witness :
    (stop_led_blinking [(0, false)] ⟨true, true, [WPC.checkLoop], none⟩).led = false ∧
    (stop_led_blinking [(0, false)] ⟨true, true, [WPC.checkLoop], none⟩).workers.all
        terminated = true ∧
    runWorkers [(0, true)]
        (stop_led_blinking [(0, false)] ⟨true, true, [WPC.checkLoop], none⟩)
      = stop_led_blinking [(0, false)] ⟨true, true, [WPC.checkLoop], none⟩ :=
  ⟨(C2_amended ⟨true, true, [WPC.checkLoop], none⟩ [(0, false)] rfl (by decide)).1,
   (C2_amended ⟨true, true, [WPC.checkLoop], none⟩ [(0, false)] rfl (by decide)).2.1,
   (C2_amended ⟨true, true, [WPC.checkLoop], none⟩ [(0, false)] rfl (by decide)).2.2
     [(0, true)]⟩

/-- Claim C3 (counterexample): start blinking, let the worker reach its first
set_led(True), and let that line write fail: the uncaught exception kills the
thread (workers = [died]), but nothing is recorded anywhere — errSlot is still
none, and it is still none after the next stop_led_blinking, which inspects
nothing and surfaces nothing to its caller. -/
theorem C3_counterexample :
    (runWorkers [(0, false), (0, true)] (start_led_blinking initLed)).workers
      = [WPC.died] ∧
    (runWorkers [(0, false), (0, true)] (start_led_blinking initLed)).errSlot = none ∧
    (stop_led_blinking []
        (runWorkers [(0, false), (0, true)] (start_led_blinking initLed))).errSlot
      = none := by
  decide

/-- Claim C3 (amended): when a line write inside the blink worker fails, the
uncaught exception terminates the thread early — it is dead immediately, stays
dead under every schedule and takes no further steps, so it does not keep
looping — but the failure is recorded nowhere: no operation writes any error
slot, so the next stop_led_blinking call finds none and surfaces nothing. -/
theorem C3_amended (s : LedSys) (i : Nat) (p : WPC)
    (hp : s.workers[i]? = some p) (hw : p = WPC.setOn ∨ p = WPC.setOff)
    (hs : s.errSlot = none) :
    (stepWorker i true s).workers[i]? = some WPC.died ∧
    (stepWorker i true s).led = s.led ∧
    (∀ sched, (runWorkers sched (stepWorker i true s)).workers[i]? = some WPC.died) ∧
    (∀ f, stepWorker i f (stepWorker i true s) = stepWorker i true s) ∧
    (∀ sched dj,
      (stop_led_blinking dj (runWorkers sched (stepWorker i true s))).errSlot = none) := by
  obtain ⟨hlt, -⟩ := List.getElem?_eq_some_iff.mp hp
  have hstep : stepWorker i true s
      = { s with workers := s.workers.set i WPC.died, led := s.led } := by
    unfold stepWorker
    rw [hp]
    rcases hw with hw | hw <;> subst hw <;> rfl
  have hdied : (stepWorker i true s).workers[i]? = some WPC.died := by
    rw [hstep]
    exact List.getElem?_set_self (by simpa using hlt)
  refine ⟨hdied, by rw [hstep], fun sched => runWorkers_died sched i _ hdied,
    fun f => stepWorker_died_noop i f _ hdied, fun sched dj => ?_⟩
  rw [stop_led_blinking_errSlot, runWorkers_errSlot, stepWorker_errSlot]
  exact hs

/-- Witness for C3_amended: one worker about to run set_led(True); the write
fails. -/
theorem C3_witness :
    (stepWorker 0 true ⟨true, false, [WPC.setOn], none⟩).workers[0]? = some WPC.died ∧
    (stepWorker 0 true ⟨true, false, [WPC.setOn], none⟩).led = false ∧
    (runWorkers [(0, false)]
        (stepWorker 0 true ⟨true, false, [WPC.setOn], none⟩)).workers[0]?
      = some WPC.died ∧
    stepWorker 0 false (stepWorker 0 true ⟨true, false, [WPC.setOn], none⟩)
      = stepWorker 0 true ⟨true, false, [WPC.setOn], none⟩ ∧
    (stop_led_blinking []
        (runWorkers [(0, false)]
          (stepWorker 0 true ⟨true, false, [WPC.setOn], none⟩))).errSlot = none :=
  ⟨(C3_amended ⟨true, false, [WPC.setOn], none⟩ 0 WPC.setOn rfl (Or.inl rfl) rfl).1,
   (C3_amended ⟨true, false, [WPC.setOn], none⟩ 0 WPC.setOn rfl (Or.inl rfl) rfl).2.1,
   (C3_amended ⟨true, false, [WPC.setOn], none⟩ 0 WPC.setOn rfl (Or.inl rfl) rfl).2.2.1
     [(0, false)],
   (C3_amended ⟨true, false, [WPC.setOn], none⟩ 0 WPC.setOn rfl (Or.inl rfl) rfl).2.2.2.1
     false,
   (C3_amended ⟨true, false, [WPC.setOn], none⟩ 0 WPC.setOn rfl (Or.inl rfl) rfl).2.2.2.2
     [(0, false)] []⟩

/-- Claim C8 (counterexample): a blink task can be running while the
led_blinking flag is clear — reachable when a stop's join(timeout=1.0) times
out with the worker still alive — and from that state start_led_blinking is
not a no-op: it spawns a second thread, after which two live blink tasks run
concurrently (here at pcs checkMid and setOn). -/
theorem C8_counterexample :
    (stop_led_blinking [] (stepWorker 0 false (start_led_blinking initLed))).workers.all
        terminated = false ∧
    start_led_blinking
        (stop_led_blinking [] (stepWorker 0 false (start_led_blinking initLed)))
      ≠ stop_led_blinking [] (stepWorker 0 false (start_led_blinking initLed)) ∧
    (start_led_blinking
        (stop_led_blinking [] (stepWorker 0 false (start_led_blinking initLed)))).workers
      = [WPC.setOn, WPC.checkLoop] ∧
    (runWorkers [(0, false), (0, false), (1, false)]
        (start_led_blinking
          (stop_led_blinking [] (stepWorker 0 false (start_led_blinking initLed))))).workers
      = [WPC.checkMid, WPC.setOn] := by
  decide

/-- Claim C8 (amended): start_led_blinking is guarded by the led_blinking flag:
two consecutive calls are equivalent to a single call, one call spawns at most
one thread, and whenever the flag is set — which in the nominal protocol is
exactly when a blink task is running — a call is a complete no-op. (The
counterexample shows the guard really is the flag and not task liveness: after
a timed-out stop a live task coexists with a cleared flag and a new start then
spawns a second task.) -/
theorem C8_amended (s : LedSys) :
    start_led_blinking (start_led_blinking s) = start_led_blinking s ∧
    (start_led_blinking s).workers.length ≤ s.workers.length + 1 ∧
    (s.flag = true → start_led_blinking s = s) := by
  refine ⟨?_, ?_, fun hf => by simp [start_led_blinking, hf]⟩
  · by_cases hf : s.flag <;> simp [start_led_blinking, hf]
  · by_cases hf : s.flag <;> simp [start_led_blinking, hf]

/-- Witness for C8_amended: two consecutive starts from the initial state give
the same state as one, and a start with the flag already set is a no-op. -/
theorem C8_witness :
    start_led_blinking (start_led_blinking initLed) = start_led_blinking initLed ∧
    start_led_blinking ⟨true, false, [WPC.setOn], none⟩
      = (⟨true, false, [WPC.setOn], none⟩ : LedSys) :=
  ⟨(C8_amended initLed).1,
   (C8_amended ⟨true, false, [WPC.setOn], none⟩).2.2 rfl⟩

deriving instance DecidableEq for Except

/-- The external inky display driver as show_image uses it. supportsSaturation
says whether set_image's signature accepts the saturation keyword (when it does
not, Python raises TypeError at the call); setImageBody is the outcome of the
driver's own body when the call is dispatched with saturation; setImageNoSat
and showResult are the outcomes of set_image without saturation and of show(). -/
structure Driver where
  supportsSaturation : Bool
  setImageBody : Except PyErr Unit
  setImageNoSat : Except PyErr Unit
  showResult : Except PyErr Unit
deriving DecidableEq

/-- inky.set_image(resized_image, saturation=saturation): a TypeError from an
unsupported keyword and a TypeError raised inside an accepting driver's body
are indistinguishable to the caller. -/
def set_image_with_sat (d : Driver) : Except PyErr Unit :=
  if d.supportsSaturation then d.setImageBody else .error .typeError

/-- The driver calls show_image can make, in order of occurrence. -/
inductive DrvCall
  | setImageSat
  | setImageNoSat
  | showCall
deriving DecidableEq

/-- The environment of one button event: the image folder, the random.choice
oracle, the set of paths for which Image.open raises, and the display driver. -/
structure Env where
  folder : List DirEntry
  choiceIx : Nat
  openFailures : List String
  driver : Driver
deriving DecidableEq

/-- Image.open(file): raises for the configured failing paths. -/
def openImage (env : Env) (path : String) : Except PyErr Unit :=
  if path ∈ env.openFailures then .error .ioError else .ok ()

/-- Dispatcher-side control state: the led_blinking flag and the LED line as
the dispatcher-level, atomically-modelled stop/start/set_led leave them (the
interleaved LedSys model above refines the thread behaviour), plus the log of
driver calls made so far. An uncaught Python exception is the some case of the
Option component threaded through show_image / handle_button below. -/
structure CState where
  blinkFlag : Bool
  led : Bool
  calls : List DrvCall
deriving DecidableEq

/-- The tail of show_image after set_image succeeded: inky.show(), then
start_led_blinking. -/
def show_commit (env : Env) (s : CState) : CState × Option PyErr :=
  let s1 := { s with calls := s.calls ++ [DrvCall.showCall] }
  match env.driver.showResult with
  | .error e => (s1, some e)
  | .ok () => ({ s1 with blinkFlag := true }, none)

/-- show_image(image_path): stop_led_blinking(); set_led(True); Image.open;
resize_image_aspect_fit (pure, cannot raise); try inky.set_image(...,
saturation=...) except TypeError: inky.set_image(...); inky.show();
start_led_blinking(). Any exception propagates to the caller with the LED
state as it was at the raise point. -/
def show_image (env : Env) (path : String) (s : CState) : CState × Option PyErr :=
  let s1 : CState := { s with blinkFlag := false, led := true }
  match openImage env path with
  | .error e => (s1, some e)
  | .ok () =>
    let s2 := { s1 with calls := s1.calls ++ [DrvCall.setImageSat] }
    match set_image_with_sat env.driver with
    | .error .typeError =>
      let s3 := { s2 with calls := s2.calls ++ [DrvCall.setImageNoSat] }
      match env.driver.setImageNoSat with
      | .error e => (s3, some e)
      | .ok () => show_commit env s3
    | .error e => (s2, some e)
    | .ok () => show_commit env s2

/-- handle_button from setup_buttons: label A shows a random image, label B the
latest, other labels only log. The selector runs before show_image; there is no
try/except anywhere, so every error propagates out of handle_button. -/
def handle_button (env : Env) (label : Char) (s : CState) : CState × Option PyErr :=
  if label = 'A' then
    match get_random_image_path env.folder env.choiceIx with
    | .error e => (s, some e)
    | .ok entry => show_image env entry.name s
  else if label = 'B' then
    match get_latest_image_path env.folder with
    | .error e => (s, some e)
    | .ok entry => show_image env entry.name s
  else
    (s, none)

/-- A driver that accepts everything. -/
def okDriver : Driver :=
  { supportsSaturation := true, setImageBody := .ok (), setImageNoSat := .ok (),
    showResult := .ok () }

/-- Claim C1 (code evaluated at the failing input): button A is pressed while
blinking, the selected image fails to open (a render failure). handle_button
has no try/except: the error escapes (second component some), the dispatcher
never reaches start_led_blinking (blinkFlag = false, no driver call is made)
and the LED is left solid-on (led = true), contradicting the required recovery
to IDLE_BLINKING. -/
theorem C1_code_behavior :
    handle_button
        ⟨[⟨"a.jpg", 5⟩], 0, ["a.jpg"], okDriver⟩ 'A'
        ⟨true, false, []⟩
      = (⟨false, true, []⟩, some PyErr.ioError) := by
  decide

/-- Claim C9 (counterexample): a driver that accepts the saturation parameter
(supportsSaturation = true) but whose set_image body itself raises TypeError.
The except TypeError clause cannot tell this driver failure from a signature
rejection: show_image retries without saturation anyway (setImageNoSat appears
in the call log) and the driver's failure is masked — no error escapes. -/
theorem C9_counterexample :
    set_image_with_sat ⟨true, Except.error PyErr.typeError, Except.ok (), Except.ok ()⟩
      = Except.error PyErr.typeError ∧
    (show_image
        ⟨[], 0, [], ⟨true, Except.error PyErr.typeError, Except.ok (), Except.ok ()⟩⟩
        "a.jpg" ⟨true, false, []⟩).1.calls
      = [DrvCall.setImageSat, DrvCall.setImageNoSat, DrvCall.showCall] ∧
    (show_image
        ⟨[], 0, [], ⟨true, Except.error PyErr.typeError, Except.ok (), Except.ok ()⟩⟩
        "a.jpg" ⟨true, false, []⟩).2 = none := by
  decide

/-- Claim C9 (amended): the retry is keyed on the TypeError exception type, not
on the driver's capability: when set_image with saturation succeeds there is no
retry and show() follows; whenever it raises TypeError — be it a signature
rejection of the unsupported parameter or a TypeError from an accepting
driver's body — exactly one retry without saturation follows (then show() on
retry success, or the retry's own error propagates); a non-TypeError failure
propagates immediately with no retry and no show(). -/
theorem C9_amended (env : Env) (path : String) (s : CState)
    (hopen : openImage env path = Except.ok ()) :
    (set_image_with_sat env.driver = Except.ok () →
      env.driver.showResult = Except.ok () →
      (show_image env path s).1.calls
          = s.calls ++ [DrvCall.setImageSat, DrvCall.showCall] ∧
      (show_image env path s).2 = none) ∧
    (set_image_with_sat env.driver = Except.error PyErr.typeError →
      env.driver.setImageNoSat = Except.ok () →
      env.driver.showResult = Except.ok () →
      (show_image env path s).1.calls
          = s.calls ++ [DrvCall.setImageSat, DrvCall.setImageNoSat, DrvCall.showCall] ∧
      (show_image env path s).2 = none) ∧
    (∀ e, set_image_with_sat env.driver = Except.error PyErr.typeError →
      env.driver.setImageNoSat = Except.error e →
      (show_image env path s).1.calls
          = s.calls ++ [DrvCall.setImageSat, DrvCall.setImageNoSat] ∧
      (show_image env path s).2 = some e) ∧
    (∀ e, e ≠ PyErr.typeError → set_image_with_sat env.driver = Except.error e →
      (show_image env path s).1.calls = s.calls ++ [DrvCall.setImageSat] ∧
      (show_image env path s).2 = some e) := by
  refine ⟨?_, ?_, ?_, ?_⟩
  · intro h1 h2
    simp [show_image, hopen, h1, show_commit, h2]
  · intro h1 h2 h3
    simp [show_image, hopen, h1, h2, show_commit, h3]
  · intro e h1 h2
    simp [show_image, hopen, h1, h2]
  · intro e hne h1
    cases e with
    | typeError => exact absurd rfl hne
    | valueError => simp [show_image, hopen, h1]
    | ioError => simp [show_image, hopen, h1]

/-- Witness for C9_amended: the claim's main scenario, a driver that rejects
the saturation keyword while everything else succeeds — one retry without the
parameter, then show(), no error. -/
theorem C9_witness :
    (show_image ⟨[], 0, [], ⟨false, Except.ok (), Except.ok (), Except.ok ()⟩⟩ "b.png"
        ⟨true, false, []⟩).1.calls
      = [DrvCall.setImageSat, DrvCall.setImageNoSat, DrvCall.showCall] ∧
    (show_image ⟨[], 0, [], ⟨false, Except.ok (), Except.ok (), Except.ok ()⟩⟩ "b.png"
        ⟨true, false, []⟩).2 = none :=
  (C9_amended ⟨[], 0, [], ⟨false, Except.ok (), Except.ok (), Except.ok ()⟩⟩ "b.png"
    ⟨true, false, []⟩ rfl).2.1 rfl rfl rfl
